import Mathlib

set_option autoImplicit false
set_option maxHeartbeats 1000000

/-
Verification of the configuration-validation core of the AIHawk CLI
(src/main.py): a shallow embedding of the parsed YAML data model, of the
Python dictionary/containment/type-test semantics the code relies on, and
of the functions of the ConfigValidator and FileManager classes together
with the decode-and-write tail of the PDF dispatch flow.
-/

/-- A parsed YAML document as produced by yaml.safe_load: null, booleans,
integers, strings, sequences and mappings (insertion-ordered, as Python
dicts are). Floating-point scalars are outside the model. -/
inductive Yaml where
  | null : Yaml
  | bool (b : Bool) : Yaml
  | int (n : Int) : Yaml
  | str (s : String) : Yaml
  | list (items : List Yaml) : Yaml
  | dict (entries : List (String × Yaml)) : Yaml

/-- Exceptions that the modelled Python code can raise. -/
inductive PyError where
  | configError (msg : String)
  | typeError (msg : String)
  | attributeError (msg : String)
  | fileNotFoundError (msg : String)
  | binasciiError (msg : String)

/-- The Python type name of a Yaml value, as it appears in error text. -/
def pyTypeName : Yaml → String
  | .null => "NoneType"
  | .bool _ => "bool"
  | .int _ => "int"
  | .str _ => "str"
  | .list _ => "list"
  | .dict _ => "dict"

/-- First value bound to a key in an insertion-ordered mapping. -/
def dictFind? : List (String × Yaml) → String → Option Yaml
  | [], _ => none
  | (k, v) :: rest, key => if k == key then some v else dictFind? rest key

/-- Python dict item assignment: update the value in place if the key is
present, otherwise append the new binding at the end. -/
def dictSet : List (String × Yaml) → String → Yaml → List (String × Yaml)
  | [], key, v => [(key, v)]
  | (k, w) :: rest, key, v =>
    if k == key then (k, v) :: rest else (k, w) :: dictSet rest key v

/-- Python `isinstance(v, bool)`. -/
def isBool : Yaml → Bool
  | .bool _ => true
  | _ => false

/-- Python `isinstance(v, dict)`. -/
def isDict : Yaml → Bool
  | .dict _ => true
  | _ => false

/-- Python `isinstance(v, list)`. -/
def isList : Yaml → Bool
  | .list _ => true
  | _ => false

/-- Python `isinstance(v, str)`. -/
def isStr : Yaml → Bool
  | .str _ => true
  | _ => false

/-- Python `isinstance(v, int)`: booleans are ints in Python. -/
def isInt : Yaml → Bool
  | .int _ => true
  | .bool _ => true
  | _ => false

/-- Python `v is None`. -/
def isNull : Yaml → Bool
  | .null => true
  | _ => false

/-- The integer value a Yaml scalar carries for Python numeric equality:
booleans compare equal to 0 and 1. -/
def pyIntVal : Yaml → Option Int
  | .int n => some n
  | .bool b => some (if b then 1 else 0)
  | _ => none

/-- Python truthiness, as used by `if not secrets[secret]`. -/
def pyTruthy : Yaml → Bool
  | .null => false
  | .bool b => b
  | .int n => n != 0
  | .str s => s != ""
  | .list items => !items.isEmpty
  | .dict entries => !entries.isEmpty

/-- Whether a string occurs as a substring of another, used for the Python
`key in someString` containment test. -/
def strContains (s pat : String) : Bool :=
  (s.splitOn pat).length != 1

/-- Message of the TypeError raised by `key in v` on a non-container. -/
def notIterableMsg (t : String) : String :=
  "argument of type " ++ t ++ " is not iterable"

/-- Python `key in v` for a string key: mapping-key test on dicts,
element test on lists, substring test on strings, TypeError otherwise. -/
def pyContains (v : Yaml) (key : String) : Except PyError Bool :=
  match v with
  | .dict entries => .ok (dictFind? entries key).isSome
  | .list items =>
    .ok (items.any fun item =>
      match item with
      | .str s => s == key
      | _ => false)
  | .str s => .ok (strContains s key)
  | other => .error (.typeError (notIterableMsg (pyTypeName other)))

/-- Python `v[key]` for a string key. -/
def pyGetItem (v : Yaml) (key : String) : Except PyError Yaml :=
  match v with
  | .dict entries =>
    match dictFind? entries key with
    | some w => .ok w
    | none => .error (.typeError ("KeyError: " ++ key))
  | .str _ => .error (.typeError "string indices must be integers")
  | .list _ => .error (.typeError "list indices must be integers, not str")
  | other => .error (.typeError (pyTypeName other ++ " object is not subscriptable"))

/-- Python `v[key] = w` for a string key. -/
def pySetItem (v : Yaml) (key : String) (w : Yaml) : Except PyError Yaml :=
  match v with
  | .dict entries => .ok (.dict (dictSet entries key w))
  | other => .error (.typeError (pyTypeName other ++ " object does not support item assignment"))

/-- Python `v.get(key)`: the bound value or None on dicts, AttributeError
on anything else. -/
def pyGet (v : Yaml) (key : String) : Except PyError Yaml :=
  match v with
  | .dict entries => .ok ((dictFind? entries key).getD .null)
  | other => .error (.attributeError (pyTypeName other ++ " object has no attribute get"))

/-- Python `all(isinstance(item, str) for item in v)`: lists check their
elements, strings iterate one-character strings, dicts iterate their
string keys, and non-iterables raise a TypeError. -/
def pyIterAllStr (v : Yaml) : Except PyError Bool :=
  match v with
  | .list items => .ok (items.all isStr)
  | .str _ => .ok true
  | .dict _ => .ok true
  | other => .error (.typeError (pyTypeName other ++ " object is not iterable"))

/-- Python `v in s` for a set of ints: value equality on int and bool
scalars, false for other hashable scalars, TypeError on unhashables. -/
def pySetContainsInt (s : List Int) (v : Yaml) : Except PyError Bool :=
  match v with
  | .int n => .ok (s.contains n)
  | .bool b => .ok (s.contains (if b then 1 else 0))
  | .str _ => .ok false
  | .null => .ok false
  | .list _ => .error (.typeError "unhashable type: list")
  | .dict _ => .error (.typeError "unhashable type: dict")

/-- The Python type a required configuration key must have. -/
inductive PyType where
  | bool
  | dict
  | list
  | int
deriving DecidableEq

/-- The printed name of an expected type, used in error messages. -/
def PyType.typeName : PyType → String
  | .bool => "bool"
  | .dict => "dict"
  | .list => "list"
  | .int => "int"

/-- Python `isinstance(v, t)` for the four expected types. -/
def isinstance (v : Yaml) : PyType → Bool
  | .bool => isBool v
  | .dict => isDict v
  | .list => isList v
  | .int => isInt v

/-- ConfigValidator.REQUIRED_CONFIG_KEYS, in Python dict insertion order. -/
def REQUIRED_CONFIG_KEYS : List (String × PyType) :=
  [("remote", .bool),
   ("experience_level", .dict),
   ("job_types", .dict),
   ("date", .dict),
   ("positions", .list),
   ("locations", .list),
   ("location_blacklist", .list),
   ("distance", .int),
   ("company_blacklist", .list),
   ("title_blacklist", .list)]

/-- ConfigValidator.EXPERIENCE_LEVELS. -/
def EXPERIENCE_LEVELS : List String :=
  ["internship", "entry", "associate", "mid_senior_level", "director", "executive"]

/-- ConfigValidator.JOB_TYPES. -/
def JOB_TYPES : List String :=
  ["full_time", "contract", "part_time", "temporary", "internship", "other", "volunteer"]

/-- ConfigValidator.DATE_FILTERS. -/
def DATE_FILTERS : List String :=
  ["all_time", "month", "week", "24_hours"]

/-- ConfigValidator.APPROVED_DISTANCES. -/
def APPROVED_DISTANCES : List Int := [0, 5, 10, 25, 50, 100]

/-- The literal list of blacklist keys tested inside validate_config. -/
def BLACKLIST_KEYS : List String :=
  ["company_blacklist", "title_blacklist", "location_blacklist"]

/-- Message of the missing-required-key ConfigError. -/
def missingKeyMsg (key config_path : String) : String :=
  "Missing required key " ++ key ++ " in " ++ config_path

/-- Message of the wrong-type ConfigError. -/
def invalidTypeMsg (key : String) (expected : PyType) (config_path : String) : String :=
  "Invalid type for key " ++ key ++ " in " ++ config_path ++ ". Expected " ++ expected.typeName ++ "."

/-- One iteration of the required-key/type loop of validate_config:
missing blacklist keys are defaulted to an empty list, other missing keys
raise; present keys of the wrong type raise unless they are blacklist
keys bound to None, which are also defaulted. -/
def checkRequiredKey (config_path : String) (params : Yaml) (key : String) (expected : PyType) : Except PyError Yaml :=
  match pyContains params key with
  | .error e => .error e
  | .ok present =>
    if !present then
      if BLACKLIST_KEYS.contains key then
        pySetItem params key (.list [])
      else
        .error (.configError (missingKeyMsg key config_path))
    else
      match pyGetItem params key with
      | .error e => .error e
      | .ok v =>
        if !(isinstance v expected) then
          if BLACKLIST_KEYS.contains key && isNull v then
            pySetItem params key (.list [])
          else
            .error (.configError (invalidTypeMsg key expected config_path))
        else
          .ok params

/-- The required-key/type loop of validate_config over a key list,
threading the (possibly mutated) parameters document. -/
def checkRequiredKeysAux (config_path : String) : List (String × PyType) → Yaml → Except PyError Yaml
  | [], params => .ok params
  | (key, t) :: rest, params =>
    match checkRequiredKey config_path params key t with
    | .error e => .error e
    | .ok p2 => checkRequiredKeysAux config_path rest p2

/-- The full required-key/type pass of validate_config. -/
def checkRequiredKeys (config_path : String) (params : Yaml) : Except PyError Yaml :=
  checkRequiredKeysAux config_path REQUIRED_CONFIG_KEYS params

/-- The shared shape of the three nested boolean-map validators: for each
expected sub-key, `m.get(subKey)` must be a boolean. -/
def validateBoolMap (subKeys : List String) (mkMsg : String → String) (m : Yaml) : Except PyError Unit :=
  match subKeys with
  | [] => .ok ()
  | k :: rest =>
    match pyGet m k with
    | .error e => .error e
    | .ok v =>
      if !(isBool v) then .error (.configError (mkMsg k))
      else validateBoolMap rest mkMsg m

/-- Message of the experience-level ConfigError. -/
def expLevelMsg (level config_path : String) : String :=
  "Experience level " ++ level ++ " must be a boolean in " ++ config_path

/-- Message of the job-type ConfigError. -/
def jobTypeMsg (job_type config_path : String) : String :=
  "Job type " ++ job_type ++ " must be a boolean in " ++ config_path

/-- Message of the date-filter ConfigError. -/
def dateFilterMsg (date_filter config_path : String) : String :=
  "Date filter " ++ date_filter ++ " must be a boolean in " ++ config_path

/-- ConfigValidator._validate_experience_levels. -/
def validate_experience_levels (experience_levels : Yaml) (config_path : String) : Except PyError Unit :=
  validateBoolMap EXPERIENCE_LEVELS (fun level => expLevelMsg level config_path) experience_levels

/-- ConfigValidator._validate_job_types. -/
def validate_job_types (job_types : Yaml) (config_path : String) : Except PyError Unit :=
  validateBoolMap JOB_TYPES (fun jt => jobTypeMsg jt config_path) job_types

/-- ConfigValidator._validate_date_filters. -/
def validate_date_filters (date_filters : Yaml) (config_path : String) : Except PyError Unit :=
  validateBoolMap DATE_FILTERS (fun df => dateFilterMsg df config_path) date_filters

/-- Message of the list-of-strings ConfigError. -/
def listOfStringsMsg (key config_path : String) : String :=
  key ++ " must be a list of strings in " ++ config_path

/-- ConfigValidator._validate_list_of_strings. -/
def validate_list_of_strings (parameters : Yaml) (keys : List String) (config_path : String) : Except PyError Unit :=
  match keys with
  | [] => .ok ()
  | key :: rest =>
    match pyGetItem parameters key with
    | .error e => .error e
    | .ok v =>
      match pyIterAllStr v with
      | .error e => .error e
      | .ok allStr =>
        if !allStr then .error (.configError (listOfStringsMsg key config_path))
        else validate_list_of_strings parameters rest config_path

/-- The text a Yaml scalar prints as inside a Python f-string. -/
def yamlText : Yaml → String
  | .null => "None"
  | .bool b => if b then "True" else "False"
  | .int n => toString n
  | .str s => s
  | .list _ => "[...]"
  | .dict _ => "{...}"

/-- Message of the invalid-distance ConfigError. -/
def invalidDistanceMsg (distance : Yaml) (config_path : String) : String :=
  "Invalid distance value " ++ yamlText distance ++ " in " ++ config_path ++ ". Must be one of the approved distances."

/-- ConfigValidator._validate_distance. -/
def validate_distance (distance : Yaml) (config_path : String) : Except PyError Unit :=
  match pySetContainsInt APPROVED_DISTANCES distance with
  | .error e => .error e
  | .ok mem =>
    if !mem then .error (.configError (invalidDistanceMsg distance config_path))
    else .ok ()

/-- Message of the blacklist-must-be-a-list ConfigError. -/
def blacklistMsg (key config_path : String) : String :=
  key ++ " must be a list in " ++ config_path

/-- The loop of ConfigValidator._validate_blacklists: each blacklist key
must hold a list at this point; a None value would be replaced by an
empty list (unreachable after the list check just before it). -/
def validateBlacklistsAux : List String → Yaml → String → Except PyError Yaml
  | [], params, _ => .ok params
  | b :: rest, params, config_path =>
    match pyGet params b with
    | .error e => .error e
    | .ok v =>
      if !(isList v) then .error (.configError (blacklistMsg b config_path))
      else
        match pyGetItem params b with
        | .error e => .error e
        | .ok v2 =>
          if isNull v2 then
            match pySetItem params b (.list []) with
            | .error e => .error e
            | .ok p2 => validateBlacklistsAux rest p2 config_path
          else validateBlacklistsAux rest params config_path

/-- ConfigValidator._validate_blacklists, returning the (possibly
mutated) parameters document the caller goes on to return. -/
def validate_blacklists (parameters : Yaml) (config_path : String) : Except PyError Yaml :=
  validateBlacklistsAux ["company_blacklist", "title_blacklist", "location_blacklist"] parameters config_path

/-- The body of ConfigValidator.validate_config after the YAML load: the
required-key/type pass, then the four nested checks, the string-list
check, the distance check, and blacklist normalization, in source order,
returning the validated parameters document. -/
def validate_config (config_path : String) (parameters : Yaml) : Except PyError Yaml :=
  match checkRequiredKeys config_path parameters with
  | .error e => .error e
  | .ok p =>
    match pyGetItem p "experience_level" with
    | .error e => .error e
    | .ok ev =>
      match validate_experience_levels ev config_path with
      | .error e => .error e
      | .ok _ =>
        match pyGetItem p "job_types" with
        | .error e => .error e
        | .ok jv =>
          match validate_job_types jv config_path with
          | .error e => .error e
          | .ok _ =>
            match pyGetItem p "date" with
            | .error e => .error e
            | .ok dv =>
              match validate_date_filters dv config_path with
              | .error e => .error e
              | .ok _ =>
                match validate_list_of_strings p ["positions", "locations"] config_path with
                | .error e => .error e
                | .ok _ =>
                  match pyGetItem p "distance" with
                  | .error e => .error e
                  | .ok dist =>
                    match validate_distance dist config_path with
                    | .error e => .error e
                    | .ok _ => validate_blacklists p config_path

/-- The outcome of opening and parsing a YAML file, abstracting the file
system: a parsed document, a YAML syntax error, or a missing file. -/
inductive LoadResult where
  | parsed (doc : Yaml)
  | yamlError (msg : String)
  | fileMissing

/-- Message of the YAML-parse ConfigError. -/
def yamlErrorMsg (yaml_path msg : String) : String :=
  "Error reading YAML file " ++ yaml_path ++ ": " ++ msg

/-- Message of the YAML-file-missing ConfigError. -/
def yamlNotFoundMsg (yaml_path : String) : String :=
  "YAML file not found: " ++ yaml_path

/-- ConfigValidator.load_yaml: wraps parse errors and missing files in
ConfigError and returns the parsed document otherwise. -/
def load_yaml (yaml_path : String) (file : LoadResult) : Except PyError Yaml :=
  match file with
  | .parsed doc => .ok doc
  | .yamlError m => .error (.configError (yamlErrorMsg yaml_path m))
  | .fileMissing => .error (.configError (yamlNotFoundMsg yaml_path))

/-- ConfigValidator.validate_config from the file upward: load, then
validate the parsed document. -/
def validate_config_file (config_yaml_path : String) (file : LoadResult) : Except PyError Yaml :=
  match load_yaml config_yaml_path file with
  | .error e => .error e
  | .ok parameters => validate_config config_yaml_path parameters

/-- Message of the missing-secret ConfigError. -/
def missingSecretMsg (secret secrets_path : String) : String :=
  "Missing secret " ++ secret ++ " in " ++ secrets_path

/-- Message of the empty-secret ConfigError. -/
def emptySecretMsg (secret secrets_path : String) : String :=
  "Secret " ++ secret ++ " cannot be empty in " ++ secrets_path

/-- The loop of ConfigValidator.validate_secrets over the mandatory
secret names: each must be present and truthy. -/
def validateSecretsAux : List String → Yaml → String → Except PyError Unit
  | [], _, _ => .ok ()
  | s :: rest, secrets, secrets_path =>
    match pyContains secrets s with
    | .error e => .error e
    | .ok present =>
      if !present then .error (.configError (missingSecretMsg s secrets_path))
      else
        match pyGetItem secrets s with
        | .error e => .error e
        | .ok v =>
          if !(pyTruthy v) then .error (.configError (emptySecretMsg s secrets_path))
          else validateSecretsAux rest secrets secrets_path

/-- The body of ConfigValidator.validate_secrets after the YAML load:
check the single mandatory secret and return its value. -/
def validate_secrets (secrets_path : String) (secrets : Yaml) : Except PyError Yaml :=
  match validateSecretsAux ["llm_api_key"] secrets secrets_path with
  | .error e => .error e
  | .ok _ => pyGetItem secrets "llm_api_key"

/-- Modelled from the spec: the filename constants live in
src/utils/constants.py, which is outside the analyzed slice; the spec
describes the data directory as holding a secrets file, a
work-preferences configuration file and a plain-text resume file. -/
def SECRETS_YAML : String := "secrets.yaml"

/-- Modelled from the spec: the work-preferences configuration filename
constant from src/utils/constants.py. -/
def WORK_PREFERENCES_YAML : String := "work_preferences.yaml"

/-- Modelled from the spec: the plain-text resume filename constant from
src/utils/constants.py. -/
def PLAIN_TEXT_RESUME_YAML : String := "plain_text_resume.yaml"

/-- FileManager.REQUIRED_FILES. -/
def REQUIRED_FILES : List String :=
  [SECRETS_YAML, WORK_PREFERENCES_YAML, PLAIN_TEXT_RESUME_YAML]

/-- A designated data directory as the file system presents it: its path,
whether it is a directory, and the names of the files it contains. -/
structure DataFolder where
  path : String
  isDir : Bool
  files : List String

/-- Message of the FileNotFoundError listing every missing required file. -/
def missingFilesMsg (missing_files : List String) : String :=
  "Missing files in data folder: " ++ String.intercalate ", " missing_files

/-- FileManager.validate_data_folder: requires the folder to be a
directory, collects every required file that is absent into one error,
and otherwise resolves the three file paths and the output directory. -/
def validate_data_folder (app_data_folder : DataFolder) : Except PyError (String × String × String × String) :=
  if !app_data_folder.isDir then
    .error (.fileNotFoundError ("Data folder not found: " ++ app_data_folder.path))
  else
    let missing_files := REQUIRED_FILES.filter (fun f => !app_data_folder.files.contains f)
    if !missing_files.isEmpty then
      .error (.fileNotFoundError (missingFilesMsg missing_files))
    else
      .ok (app_data_folder.path ++ "/" ++ SECRETS_YAML,
           app_data_folder.path ++ "/" ++ WORK_PREFERENCES_YAML,
           app_data_folder.path ++ "/" ++ PLAIN_TEXT_RESUME_YAML,
           app_data_folder.path ++ "/output")

/-- The sextet value of a standard base64 alphabet character. -/
def b64CharVal (c : Char) : Option Nat :=
  if 'A' ≤ c ∧ c ≤ 'Z' then some (c.toNat - 65)
  else if 'a' ≤ c ∧ c ≤ 'z' then some (c.toNat - 97 + 26)
  else if '0' ≤ c ∧ c ≤ '9' then some (c.toNat - 48 + 52)
  else if c == '+' then some 62
  else if c == '/' then some 63
  else none

/-- Message of the binascii.Error raised on a malformed base64 payload. -/
def invalidB64Msg : String :=
  "Invalid base64-encoded string: number of data characters cannot be 1 more than a multiple of 4"

/-- Decode base64 quanta of four characters into bytes: a quantum ending
in two padding characters yields one byte and in one yields two; padding
is only legal in the final quantum and never in its first two characters. -/
def b64DecodeGroups : List Char → Except PyError (List Nat)
  | [] => .ok []
  | a :: b :: c :: d :: rest =>
    match b64CharVal a, b64CharVal b with
    | some av, some bv =>
      if c == '=' then
        if d == '=' && rest.isEmpty then .ok [av * 4 + bv / 16]
        else .error (.binasciiError invalidB64Msg)
      else
        match b64CharVal c with
        | some cv =>
          if d == '=' then
            if rest.isEmpty then .ok [av * 4 + bv / 16, (bv % 16) * 16 + cv / 4]
            else .error (.binasciiError invalidB64Msg)
          else
            match b64CharVal d with
            | some dv =>
              match b64DecodeGroups rest with
              | .error e => .error e
              | .ok bytes =>
                .ok ([av * 4 + bv / 16, (bv % 16) * 16 + cv / 4, (cv % 4) * 64 + dv] ++ bytes)
            | none => .error (.binasciiError invalidB64Msg)
        | none => .error (.binasciiError invalidB64Msg)
    | _, _ => .error (.binasciiError invalidB64Msg)
  | _ => .error (.binasciiError invalidB64Msg)

/-- base64.b64decode with validate=False, as the dispatch flow calls it:
characters outside the alphabet and padding are discarded, the remaining
length must be a multiple of four, and the quanta are decoded to bytes. -/
def b64decode (s : String) : Except PyError (List Nat) :=
  let chars := s.data.filter (fun c => (b64CharVal c).isSome || c == '=')
  if chars.length % 4 != 0 then .error (.binasciiError invalidB64Msg)
  else b64DecodeGroups chars

/-- The output files written so far, each write appending a path-bytes
pair. -/
abbrev OutputFiles : Type := List (String × List Nat)

/-- The tail of create_resume_pdf once the build collaborator has
returned its payload string: decode it from base64 and only then write
the PDF bytes to the output path; a decode failure is logged and
re-raised before any write, leaving the output files unchanged. -/
def create_resume_pdf_finish (result_base64 : String) (output_path : String) (written : OutputFiles) : OutputFiles × Option PyError :=
  match b64decode result_base64 with
  | .error e => (written, some e)
  | .ok pdf_data => (written ++ [(output_path, pdf_data)], none)

/-- Whether a key is bound in a document to a value of the expected
Python type. -/
def hasTyped (es : List (String × Yaml)) (key : String) (t : PyType) : Bool :=
  match dictFind? es key with
  | some v => isinstance v t
  | none => false

/-- Whether a key is bound to a mapping carrying a boolean at every one
of the given sub-keys. -/
def boolMapOK (es : List (String × Yaml)) (key : String) (subs : List String) : Bool :=
  match dictFind? es key with
  | some (.dict m) => subs.all (fun s => isBool ((dictFind? m s).getD .null))
  | _ => false

/-- Whether a key is bound to a list whose elements are all strings. -/
def strListOK (es : List (String × Yaml)) (key : String) : Bool :=
  match dictFind? es key with
  | some (.list xs) => xs.all isStr
  | _ => false

/-- Whether a blacklist key is in a state validate_config accepts:
absent, explicitly null, or a list. -/
def blacklistOK (es : List (String × Yaml)) (key : String) : Bool :=
  match dictFind? es key with
  | none => true
  | some .null => true
  | some (.list _) => true
  | some _ => false

/-- All three blacklist keys are in an accepted state. -/
def blacklistsOK (es : List (String × Yaml)) : Bool :=
  BLACKLIST_KEYS.all (fun bk => blacklistOK es bk)

/-- Validity of everything the non-blacklist stages check except the
distance set membership: required keys present and well-typed, the three
nested maps fully boolean, positions and locations lists of strings. -/
def coreValid (es : List (String × Yaml)) : Bool :=
  hasTyped es "remote" .bool &&
  boolMapOK es "experience_level" EXPERIENCE_LEVELS &&
  boolMapOK es "job_types" JOB_TYPES &&
  boolMapOK es "date" DATE_FILTERS &&
  strListOK es "positions" &&
  strListOK es "locations" &&
  hasTyped es "distance" .int

/-- Whether the distance value is an int (or bool) belonging to the
approved set under Python equality. -/
def distanceValid (es : List (String × Yaml)) : Bool :=
  match dictFind? es "distance" with
  | some v =>
    match pyIntVal v with
    | some n => APPROVED_DISTANCES.contains n
    | none => false
  | none => false

/-- The effect of the required-key pass on one blacklist key in an
accepted state: an existing list is kept, anything else becomes an empty
list. -/
def blStep (es : List (String × Yaml)) (key : String) : List (String × Yaml) :=
  match dictFind? es key with
  | some (.list _) => es
  | _ => dictSet es key (.list [])

/-- The cumulative blacklist normalization the required-key pass performs,
in the order the three keys occur in REQUIRED_CONFIG_KEYS. -/
def normalizeBlacklists (es : List (String × Yaml)) : List (String × Yaml) :=
  blStep (blStep (blStep es "location_blacklist") "company_blacklist") "title_blacklist"

/-- Spec-side description of the post-pass validation order: experience
levels, then job types, then date filters, then the string-list fields,
then distance, then blacklist normalization, short-circuiting on the
first error. Claim C1 compares validate_config against this chain. -/
def specValidationOrder (config_path : String) (ps : List (String × Yaml)) : Except PyError Yaml :=
  match validate_experience_levels ((dictFind? ps "experience_level").getD .null) config_path with
  | .error e => .error e
  | .ok _ =>
    match validate_job_types ((dictFind? ps "job_types").getD .null) config_path with
    | .error e => .error e
    | .ok _ =>
      match validate_date_filters ((dictFind? ps "date").getD .null) config_path with
      | .error e => .error e
      | .ok _ =>
        match validate_list_of_strings (.dict ps) ["positions", "locations"] config_path with
        | .error e => .error e
        | .ok _ =>
          match validate_distance ((dictFind? ps "distance").getD .null) config_path with
          | .error e => .error e
          | .ok _ => validate_blacklists (.dict ps) config_path

/-- Spec-side predicate: the earliest violation the required-key pass
meets is exactly the absence of the given key — every key before it is
present with the expected type. -/
def firstViolationMissing (keys : List (String × PyType)) (es : List (String × Yaml)) (k : String) : Bool :=
  match keys with
  | [] => false
  | (k0, t0) :: rest =>
    if k0 == k then (dictFind? es k).isNone && !(BLACKLIST_KEYS.contains k)
    else hasTyped es k0 t0 && firstViolationMissing rest es k

/-- Whether the key names of a required-key list are pairwise distinct. -/
def namesNodup : List (String × PyType) → Bool
  | [] => true
  | kt :: rest => rest.all (fun kt2 => !(kt2.1 == kt.1)) && namesNodup rest

/-- The minimal valid configuration document of the spec round-trip
property: every required key present, the three nested maps fully
populated with booleans, empty lists everywhere, distance 0. -/
def minimalEntries : List (String × Yaml) :=
  [("remote", .bool false),
   ("experience_level", .dict (EXPERIENCE_LEVELS.map (fun l => (l, Yaml.bool false)))),
   ("job_types", .dict (JOB_TYPES.map (fun j => (j, Yaml.bool false)))),
   ("date", .dict (DATE_FILTERS.map (fun d => (d, Yaml.bool false)))),
   ("positions", .list []),
   ("locations", .list []),
   ("location_blacklist", .list []),
   ("distance", .int 0),
   ("company_blacklist", .list []),
   ("title_blacklist", .list [])]

/-- The minimal document with the distance key removed. -/
def missingDistanceEntries : List (String × Yaml) :=
  minimalEntries.filter (fun e => !(e.1 == "distance"))

/-- The minimal document with the company blacklist removed. -/
def missingCompanyBlacklistEntries : List (String × Yaml) :=
  minimalEntries.filter (fun e => !(e.1 == "company_blacklist"))

/-- The minimal document with the distance rebound to 5. -/
def distanceFiveEntries : List (String × Yaml) :=
  dictSet minimalEntries "distance" (.int 5)

/-- The minimal document with the distance rebound to the boolean False. -/
def distanceFalseEntries : List (String × Yaml) :=
  dictSet minimalEntries "distance" (.bool false)

/-- A data folder holding the secrets and work-preferences files but not
the plain-text resume. -/
def folderWithoutResume : DataFolder :=
  { path := "data_folder", isDir := true, files := [SECRETS_YAML, WORK_PREFERENCES_YAML] }


theorem dictFind?_dictSet_self (es : List (String × Yaml)) (key : String) (v : Yaml) :
    dictFind? (dictSet es key v) key = some v := by
  induction es with
  | nil => simp [dictSet, dictFind?]
  | cons e rest ih =>
    obtain ⟨k0, w⟩ := e
    by_cases h : k0 = key
    · subst h; simp [dictSet, dictFind?]
    · simp [dictSet, dictFind?, h, ih]

theorem dictFind?_dictSet_ne (es : List (String × Yaml)) (key k2 : String) (v : Yaml)
    (h : k2 ≠ key) : dictFind? (dictSet es key v) k2 = dictFind? es k2 := by
  have hne : ¬(key = k2) := fun hh => h hh.symm
  induction es with
  | nil => simp [dictSet, dictFind?, hne]
  | cons e rest ih =>
    obtain ⟨k0, w⟩ := e
    by_cases h0 : k0 = key
    · rw [h0]
      simp [dictSet, dictFind?, hne]
    · simp only [dictSet, beq_iff_eq, h0, if_false, dictFind?, ih]

theorem isBool_eq_true (v : Yaml) (h : isBool v = true) : ∃ b, v = .bool b := by
  cases v <;> simp_all [isBool]

theorem isDict_eq_true (v : Yaml) (h : isDict v = true) : ∃ m, v = .dict m := by
  cases v <;> simp_all [isDict]

theorem isList_eq_true (v : Yaml) (h : isList v = true) : ∃ xs, v = .list xs := by
  cases v <;> simp_all [isList]

theorem isInt_eq_true (v : Yaml) (h : isInt v = true) :
    (∃ n, v = .int n) ∨ (∃ b, v = .bool b) := by
  cases v <;> simp_all [isInt]

theorem isinstance_null_false (t : PyType) : isinstance Yaml.null t = false := by
  cases t <;> rfl

theorem checkRequiredKey_found (path : String) (es : List (String × Yaml)) (key : String)
    (t : PyType) (v : Yaml) (hf : dictFind? es key = some v) (ht : isinstance v t = true) :
    checkRequiredKey path (.dict es) key t = .ok (.dict es) := by
  simp [checkRequiredKey, pyContains, pyGetItem, hf, ht]

theorem checkRequiredKey_absent_blacklist (path : String) (es : List (String × Yaml))
    (key : String) (t : PyType) (hf : dictFind? es key = none)
    (hbk : BLACKLIST_KEYS.contains key = true) :
    checkRequiredKey path (.dict es) key t = .ok (.dict (dictSet es key (.list []))) := by
  have hmem : key ∈ BLACKLIST_KEYS := by simpa using hbk
  simp [checkRequiredKey, pyContains, pySetItem, hf, hmem]

theorem checkRequiredKey_absent_required (path : String) (es : List (String × Yaml))
    (key : String) (t : PyType) (hf : dictFind? es key = none)
    (hbk : BLACKLIST_KEYS.contains key = false) :
    checkRequiredKey path (.dict es) key t = .error (.configError (missingKeyMsg key path)) := by
  have hmem : key ∉ BLACKLIST_KEYS := by simpa using hbk
  simp [checkRequiredKey, pyContains, hf, hmem]

theorem checkRequiredKey_null_blacklist (path : String) (es : List (String × Yaml))
    (key : String) (t : PyType) (hf : dictFind? es key = some .null)
    (hbk : BLACKLIST_KEYS.contains key = true) :
    checkRequiredKey path (.dict es) key t = .ok (.dict (dictSet es key (.list []))) := by
  have hmem : key ∈ BLACKLIST_KEYS := by simpa using hbk
  simp [checkRequiredKey, pyContains, pyGetItem, pySetItem, hf, hmem,
    isinstance_null_false, isNull]

theorem checkRequiredKey_wrong_type (path : String) (es : List (String × Yaml)) (key : String)
    (t : PyType) (v : Yaml) (hf : dictFind? es key = some v) (ht : isinstance v t = false)
    (hbn : (BLACKLIST_KEYS.contains key && isNull v) = false) :
    checkRequiredKey path (.dict es) key t = .error (.configError (invalidTypeMsg key t path)) := by
  simp only [checkRequiredKey, pyContains, pyGetItem, hf, ht, hbn, Option.isSome_some,
    Bool.not_true, Bool.false_eq_true, if_false, Bool.not_false, if_true]

theorem checkRequiredKey_ok_cases (path : String) (es : List (String × Yaml)) (key : String)
    (t : PyType) (q : Yaml) (h : checkRequiredKey path (.dict es) key t = .ok q) :
    q = .dict es ∨ q = .dict (dictSet es key (.list [])) := by
  revert h
  cases hf : dictFind? es key with
  | none =>
    cases hbk : BLACKLIST_KEYS.contains key with
    | false => simp [checkRequiredKey_absent_required path es key t hf hbk]
    | true =>
      rw [checkRequiredKey_absent_blacklist path es key t hf hbk]
      intro h
      exact Or.inr (Except.ok.inj h).symm
  | some v =>
    cases ht : isinstance v t with
    | true =>
      rw [checkRequiredKey_found path es key t v hf ht]
      intro h
      exact Or.inl (Except.ok.inj h).symm
    | false =>
      cases hbn : BLACKLIST_KEYS.contains key && isNull v with
      | false => simp [checkRequiredKey_wrong_type path es key t v hf ht hbn]
      | true =>
        have h2 : BLACKLIST_KEYS.contains key = true ∧ isNull v = true := by
          simpa using hbn
        have hv : v = .null := by
          cases v <;> simp_all [isNull]
        subst hv
        rw [checkRequiredKey_null_blacklist path es key t hf h2.1]
        intro h
        exact Or.inr (Except.ok.inj h).symm

theorem checkRequiredKey_error_config (path : String) (es : List (String × Yaml)) (key : String)
    (t : PyType) (e : PyError) (h : checkRequiredKey path (.dict es) key t = .error e) :
    ∃ m, e = .configError m := by
  revert h
  cases hf : dictFind? es key with
  | none =>
    cases hbk : BLACKLIST_KEYS.contains key with
    | false =>
      rw [checkRequiredKey_absent_required path es key t hf hbk]
      intro h
      exact ⟨missingKeyMsg key path, (Except.error.inj h).symm⟩
    | true => simp [checkRequiredKey_absent_blacklist path es key t hf hbk]
  | some v =>
    cases ht : isinstance v t with
    | true => simp [checkRequiredKey_found path es key t v hf ht]
    | false =>
      cases hbn : BLACKLIST_KEYS.contains key && isNull v with
      | false =>
        rw [checkRequiredKey_wrong_type path es key t v hf ht hbn]
        intro h
        exact ⟨invalidTypeMsg key t path, (Except.error.inj h).symm⟩
      | true =>
        have h2 : BLACKLIST_KEYS.contains key = true ∧ isNull v = true := by
          simpa using hbn
        have hv : v = .null := by
          cases v <;> simp_all [isNull]
        subst hv
        simp [checkRequiredKey_null_blacklist path es key t hf 
          h2.1]

theorem checkRequiredKeysAux_ok_dict (path : String) (keys : List (String × PyType)) :
    ∀ (es : List (String × Yaml)) (q : Yaml),
      checkRequiredKeysAux path keys (.dict es) = .ok q → ∃ ps, q = .dict ps := by
  induction keys with
  | nil =>
    intro es q h
    exact ⟨es, (Except.ok.inj h).symm⟩
  | cons kt rest ih =>
    obtain ⟨key, t⟩ := kt
    intro es q h
    simp only [checkRequiredKeysAux] at h
    revert h
    cases hs : checkRequiredKey path (.dict es) key t with
    | error e => intro h; exact absurd h (by simp)
    | ok p2 =>
      intro h
      rcases checkRequiredKey_ok_cases path es key t p2 hs with h2 | h2 <;>
        exact ih _ q (h2 ▸ h)

theorem checkRequiredKeysAux_error_config (path : String) (keys : List (String × PyType)) :
    ∀ (es : List (String × Yaml)) (e : PyError),
      checkRequiredKeysAux path keys (.dict es) = .error e → ∃ m, e = .configError m := by
  induction keys with
  | nil =>
    intro es e h
    exact absurd h (by simp [checkRequiredKeysAux])
  | cons kt rest ih =>
    obtain ⟨key, t⟩ := kt
    intro es e h
    simp only [checkRequiredKeysAux] at h
    revert h
    cases hs : checkRequiredKey path (.dict es) key t with
    | error e2 =>
      intro h
      exact (Except.error.inj h) ▸ checkRequiredKey_error_config path es key t e2 hs
    | ok p2 =>
      intro h
      rcases checkRequiredKey_ok_cases path es key t p2 hs with h2 | h2 <;>
        exact ih _ e (h2 ▸ h)

theorem checkRequiredKeysAux_untouched (path : String) (keys : List (String × PyType)) :
    ∀ (es ps : List (String × Yaml)) (k : String),
      checkRequiredKeysAux path keys (.dict es) = .ok (.dict ps) →
      keys.all (fun kt => !(kt.1 == k)) = true →
      dictFind? ps k = dictFind? es k := by
  induction keys with
  | nil =>
    intro es ps k h _
    have h2 : Yaml.dict es = Yaml.dict ps := Except.ok.inj h
    rw [Yaml.dict.inj h2]
  | cons kt rest ih =>
    obtain ⟨key, t⟩ := kt
    intro es ps k h hall
    simp only [List.all_cons, Bool.and_eq_true] at hall
    have hhead : ¬(key = k) := by simpa using hall.1
    have hrest := hall.2
    simp only [checkRequiredKeysAux] at h
    revert h
    cases hs : checkRequiredKey path (.dict es) key t with
    | error e => intro h; exact absurd h (by simp)
    | ok p2 =>
      intro h
      rcases checkRequiredKey_ok_cases path es key t p2 hs with h2 | h2
      · rw [h2] at h
        exact ih es ps k h hrest
      · rw [h2] at h
        rw [ih _ ps k h hrest]
        exact dictFind?_dictSet_ne es key k _ (fun hh => hhead hh.symm)

theorem checkRequiredKey_post (path : String) (es es2 : List (String × Yaml)) (key : String)
    (t : PyType) (h : checkRequiredKey path (.dict es) key t = .ok (.dict es2))
    (hblt : BLACKLIST_KEYS.contains key = true → t = .list) :
    ∃ v, dictFind? es2 key = some v ∧ isinstance v t = true := by
  revert h
  cases hf : dictFind? es key with
  | none =>
    cases hbk : BLACKLIST_KEYS.contains key with
    | false => simp [checkRequiredKey_absent_required path es key t hf hbk]
    | true =>
      rw [checkRequiredKey_absent_blacklist path es key t hf hbk]
      intro h
      have he : es2 = dictSet es key (.list []) :=
        (Yaml.dict.inj (Except.ok.inj h)).symm
      subst he
      refine ⟨.list [], dictFind?_dictSet_self es key _, ?_⟩
      rw [hblt hbk]
      rfl
  | some v =>
    cases ht : isinstance v t with
    | true =>
      rw [checkRequiredKey_found path es key t v hf ht]
      intro h
      have he : es2 = es := (Yaml.dict.inj (Except.ok.inj h)).symm
      subst he
      exact ⟨v, hf, ht⟩
    | false =>
      cases hbn : BLACKLIST_KEYS.contains key && isNull v with
      | false => simp [checkRequiredKey_wrong_type path es key t v hf ht hbn]
      | true =>
        have h2 : BLACKLIST_KEYS.contains key = true ∧ isNull v = true := by
          simpa using hbn
        have hv : v = .null := by cases v <;> simp_all [isNull]
        subst hv
        rw [checkRequiredKey_null_blacklist path es key t hf h2.1]
        intro h
        have he : es2 = dictSet es key (.list []) :=
          (Yaml.dict.inj (Except.ok.inj h)).symm
        subst he
        refine ⟨.list [], dictFind?_dictSet_self es key _, ?_⟩
        rw [hblt h2.1]
        rfl

theorem checkRequiredKeysAux_post (path : String) (keys : List (String × PyType)) :
    ∀ (es ps : List (String × Yaml)),
      checkRequiredKeysAux path keys (.dict es) = .ok (.dict ps) →
      namesNodup keys = true →
      keys.all (fun kt => !(BLACKLIST_KEYS.contains kt.1) || (kt.2 == PyType.list)) = true →
      ∀ key t, (key, t) ∈ keys → ∃ v, dictFind? ps key = some v ∧ isinstance v t = true := by
  induction keys with
  | nil =>
    intro es ps _ _ _ key t hmem
    exact absurd hmem (List.not_mem_nil _)
  | cons kt rest ih =>
    obtain ⟨k0, t0⟩ := kt
    intro es ps h hnd hbl key t hmem
    simp only [namesNodup, Bool.and_eq_true] at hnd
    simp only [List.all_cons, Bool.and_eq_true] at hbl
    have hbl0 : BLACKLIST_KEYS.contains k0 = true → t0 = .list := by
      intro hc
      have hh := hbl.1
      rw [hc] at hh
      simpa using hh
    simp only [checkRequiredKeysAux] at h
    revert h
    cases hs : checkRequiredKey path (.dict es) k0 t0 with
    | error e => intro h; exact absurd h (by simp)
    | ok p2 =>
      intro h
      obtain ⟨es2, he2⟩ : ∃ es2, p2 = Yaml.dict es2 := by
        rcases checkRequiredKey_ok_cases path es k0 t0 p2 hs with h2 | h2
        · exact ⟨es, h2⟩
        · exact ⟨dictSet es k0 (.list []), h2⟩
      rw [he2] at h hs
      rcases List.mem_cons.mp hmem with hhead | htail
      · injection hhead with hk1 hk2
        subst hk1; subst hk2
        obtain ⟨v, hv, hvt⟩ := checkRequiredKey_post path es es2 key t hs hbl0
        refine ⟨v, ?_, hvt⟩
        rw [checkRequiredKeysAux_untouched path rest es2 ps key h hnd.1]
        exact hv
      · exact ih es2 ps h hnd.2 hbl.2 key t htail

theorem checkRequiredKeysAux_missing (path : String) (keys : List (String × PyType)) :
    ∀ (es : List (String × Yaml)) (k : String),
      keys.any (fun kt => kt.1 == k) = true →
      BLACKLIST_KEYS.contains k = false →
      dictFind? es k = none →
      ∃ m, checkRequiredKeysAux path keys (.dict es) = .error (.configError m) := by
  induction keys with
  | nil =>
    intro es k hany _ _
    exact absurd hany (by simp)
  | cons kt rest ih =>
    obtain ⟨k0, t0⟩ := kt
    intro es k hany hnb habs
    by_cases hk : k0 = k
    · subst hk
      refine ⟨missingKeyMsg k0 path, ?_⟩
      simp only [checkRequiredKeysAux,
        checkRequiredKey_absent_required path es k0 t0 habs hnb]
    · simp only [List.any_cons, Bool.or_eq_true] at hany
      have hany2 : rest.any (fun kt => kt.1 == k) = true := by
        rcases hany with h1 | h1
        · exact absurd (by simpa using h1) hk
        · exact h1
      simp only [checkRequiredKeysAux]
      cases hs : checkRequiredKey path (.dict es) k0 t0 with
      | error e =>
        obtain ⟨m, hm⟩ := checkRequiredKey_error_config path es k0 t0 e hs
        exact ⟨m, by rw [hm]⟩
      | ok p2 =>
        obtain ⟨es2, he2⟩ : ∃ es2, p2 = Yaml.dict es2 := by
          rcases checkRequiredKey_ok_cases path es k0 t0 p2 hs with h2 | h2
          · exact ⟨es, h2⟩
          · exact ⟨dictSet es k0 (.list []), h2⟩
        subst he2
        have habs2 : dictFind? es2 k = none := by
          rcases checkRequiredKey_ok_cases path es k0 t0 _ hs with h2 | h2 <;>
            rcases Yaml.dict.inj h2 with h3
          · rw [h3]; exact habs
          · rw [h3, dictFind?_dictSet_ne es k0 k _ (fun hh => hk hh.symm)]
            exact habs
        exact ih es2 k hany2 hnb habs2

theorem checkRequiredKeysAux_first_missing (path : String) (keys : List (String × PyType)) :
    ∀ (es : List (String × Yaml)) (k : String),
      firstViolationMissing keys es k = true →
      checkRequiredKeysAux path keys (.dict es) = .error (.configError (missingKeyMsg k path)) := by
  induction keys with
  | nil =>
    intro es k hfv
    exact absurd hfv (by simp [firstViolationMissing])
  | cons kt rest ih =>
    obtain ⟨k0, t0⟩ := kt
    intro es k hfv
    simp only [firstViolationMissing] at hfv
    by_cases hk : k0 = k
    · rw [if_pos (by simpa using hk)] at hfv
      have h2 : (dictFind? es k).isNone = true ∧ (!(BLACKLIST_KEYS.contains k)) = true := by
        simpa using hfv
      have habs : dictFind? es k = none := Option.isNone_iff_eq_none.mp h2.1
      have hnb : BLACKLIST_KEYS.contains k = false := by simpa using h2.2
      subst hk
      simp only [checkRequiredKeysAux,
        checkRequiredKey_absent_required path es k0 t0 habs hnb]
    · rw [if_neg (by simpa using hk)] at hfv
      have h2 : hasTyped es k0 t0 = true ∧ firstViolationMissing rest es k = true := by
        simpa using hfv
      obtain ⟨v, hv, hvt⟩ : ∃ v, dictFind? es k0 = some v ∧ isinstance v t0 = true := by
        have := h2.1
        unfold hasTyped at this
        cases hf : dictFind? es k0 with
        | none => rw [hf] at this; exact absurd this (by simp)
        | some v => rw [hf] at this; exact ⟨v, rfl, this⟩
      simp only [checkRequiredKeysAux, checkRequiredKey_found path es k0 t0 v hv hvt]
      exact ih es k h2.2

theorem blStep_of_blacklistOK (path : String) (es : List (String × Yaml)) (key : String)
    (hbk : BLACKLIST_KEYS.contains key = true) (hok : blacklistOK es key = true) :
    checkRequiredKey path (.dict es) key .list = .ok (.dict (blStep es key)) := by
  unfold blacklistOK at hok
  unfold blStep
  cases hf : dictFind? es key with
  | none =>
    rw [checkRequiredKey_absent_blacklist path es key .list hf hbk]
  | some v =>
    rw [hf] at hok
    cases v with
    | null => rw [checkRequiredKey_null_blacklist path es key .list hf hbk]
    | list xs => rw [checkRequiredKey_found path es key .list _ hf (by rfl)]
    | bool b => exact absurd hok (by simp)
    | int n => exact absurd hok (by simp)
    | str s => exact absurd hok (by simp)
    | dict m => exact absurd hok (by simp)

theorem dictFind?_blStep_ne (es : List (String × Yaml)) (key k2 : String)
    (h : k2 ≠ key) : dictFind? (blStep es key) k2 = dictFind? es k2 := by
  unfold blStep
  cases dictFind? es key with
  | none => exact dictFind?_dictSet_ne es key k2 _ h
  | some v =>
    cases v with
    | list xs => rfl
    | null => exact dictFind?_dictSet_ne es key k2 _ h
    | bool b => exact dictFind?_dictSet_ne es key k2 _ h
    | int n => exact dictFind?_dictSet_ne es key k2 _ h
    | str s => exact dictFind?_dictSet_ne es key k2 _ h
    | dict m => exact dictFind?_dictSet_ne es key k2 _ h

theorem dictFind?_blStep_self (es : List (String × Yaml)) (key : String)
    (hok : blacklistOK es key = true) :
    ∃ xs, dictFind? (blStep es key) key = some (.list xs) := by
  unfold blacklistOK at hok
  unfold blStep
  cases hf : dictFind? es key with
  | none => exact ⟨[], dictFind?_dictSet_self es key _⟩
  | some v =>
    rw [hf] at hok
    cases v with
    | null => exact ⟨[], dictFind?_dictSet_self es key _⟩
    | list xs => exact ⟨xs, hf⟩
    | bool b => exact absurd hok (by simp)
    | int n => exact absurd hok (by simp)
    | str s => exact absurd hok (by simp)
    | dict m => exact absurd hok (by simp)

theorem dictFind?_blStep_default (es : List (String × Yaml)) (key : String)
    (habs : dictFind? es key = none ∨ dictFind? es key = some .null) :
    dictFind? (blStep es key) key = some (.list []) := by
  unfold blStep
  rcases habs with h | h <;> rw [h] <;> exact dictFind?_dictSet_self es key _

theorem blacklistOK_blStep_ne (es : List (String × Yaml)) (key k2 : String)
    (h : k2 ≠ key) : blacklistOK (blStep es key) k2 = blacklistOK es k2 := by
  unfold blacklistOK
  rw [dictFind?_blStep_ne es key k2 h]

theorem hasTyped_elim (es : List (String × Yaml)) (key : String) (t : PyType)
    (h : hasTyped es key t = true) :
    ∃ v, dictFind? es key = some v ∧ isinstance v t = true := by
  unfold hasTyped at h
  cases hf : dictFind? es key with
  | none => rw [hf] at h; exact absurd h (by simp)
  | some v => rw [hf] at h; exact ⟨v, rfl, h⟩

theorem boolMapOK_elim (es : List (String × Yaml)) (key : String) (subs : List String)
    (h : boolMapOK es key subs = true) :
    ∃ m, dictFind? es key = some (.dict m) ∧
      subs.all (fun s => isBool ((dictFind? m s).getD .null)) = true := by
  unfold boolMapOK at h
  cases hf : dictFind? es key with
  | none => rw [hf] at h; exact absurd h (by simp)
  | some v =>
    rw [hf] at h
    cases v with
    | dict m => exact ⟨m, rfl, h⟩
    | null => exact absurd h (by simp)
    | bool b => exact absurd h (by simp)
    | int n => exact absurd h (by simp)
    | str s => exact absurd h (by simp)
    | list xs => exact absurd h (by simp)

theorem strListOK_elim (es : List (String × Yaml)) (key : String)
    (h : strListOK es key = true) :
    ∃ xs, dictFind? es key = some (.list xs) ∧ xs.all isStr = true := by
  unfold strListOK at h
  cases hf : dictFind? es key with
  | none => rw [hf] at h; exact absurd h (by simp)
  | some v =>
    rw [hf] at h
    cases v with
    | list xs => exact ⟨xs, rfl, h⟩
    | null => exact absurd h (by simp)
    | bool b => exact absurd h (by simp)
    | int n => exact absurd h (by simp)
    | str s => exact absurd h (by simp)
    | dict m => exact absurd h (by simp)

theorem blacklistsOK_elim (es : List (String × Yaml)) (h : blacklistsOK es = true) :
    blacklistOK es "company_blacklist" = true ∧
    blacklistOK es "title_blacklist" = true ∧
    blacklistOK es "location_blacklist" = true := by
  simpa [blacklistsOK, BLACKLIST_KEYS] using h

theorem checkRequiredKeys_coreValid (path : String) (es : List (String × Yaml))
    (hcv : coreValid es = true) (hbl : blacklistsOK es = true) :
    checkRequiredKeys path (.dict es) = .ok (.dict (normalizeBlacklists es)) := by
  simp only [coreValid, Bool.and_eq_true] at hcv
  obtain ⟨⟨⟨⟨⟨⟨h1, h2⟩, h3⟩, h4⟩, h5⟩, h6⟩, h7⟩ := hcv
  obtain ⟨hblc, hblt, hbll⟩ := blacklistsOK_elim es hbl
  obtain ⟨vr, hfr, htr⟩ := hasTyped_elim es "remote" .bool h1
  obtain ⟨mel, hfe, _⟩ := boolMapOK_elim es "experience_level" EXPERIENCE_LEVELS h2
  obtain ⟨mjt, hfj, _⟩ := boolMapOK_elim es "job_types" JOB_TYPES h3
  obtain ⟨mdf, hfd, _⟩ := boolMapOK_elim es "date" DATE_FILTERS h4
  obtain ⟨xpos, hfp, _⟩ := strListOK_elim es "positions" h5
  obtain ⟨xloc, hfl, _⟩ := strListOK_elim es "locations" h6
  obtain ⟨vd, hfdist, htd⟩ := hasTyped_elim es "distance" .int h7
  have s1 := checkRequiredKey_found path es "remote" .bool vr hfr htr
  have s2 := checkRequiredKey_found path es "experience_level" .dict _ hfe (by rfl)
  have s3 := checkRequiredKey_found path es "job_types" .dict _ hfj (by rfl)
  have s4 := checkRequiredKey_found path es "date" .dict _ hfd (by rfl)
  have s5 := checkRequiredKey_found path es "positions" .list _ hfp (by rfl)
  have s6 := checkRequiredKey_found path es "locations" .list _ hfl (by rfl)
  have s7 := blStep_of_blacklistOK path es "location_blacklist" (by rfl) hbll
  have hfd1 : dictFind? (blStep es "location_blacklist") "distance" = some vd := by
    rw [dictFind?_blStep_ne es "location_blacklist" "distance" (by decide)]
    exact hfdist
  have s8 := checkRequiredKey_found path (blStep es "location_blacklist") "distance" .int vd hfd1 htd
  have hblc1 : blacklistOK (blStep es "location_blacklist") "company_blacklist" = true := by
    rw [blacklistOK_blStep_ne es "location_blacklist" "company_blacklist" (by decide)]
    exact hblc
  have s9 := blStep_of_blacklistOK path (blStep es "location_blacklist") "company_blacklist" (by rfl) hblc1
  have hblt1 : blacklistOK (blStep (blStep es "location_blacklist") "company_blacklist") "title_blacklist" = true := by
    rw [blacklistOK_blStep_ne _ "company_blacklist" "title_blacklist" (by decide),
      blacklistOK_blStep_ne _ "location_blacklist" "title_blacklist" (by decide)]
    exact hblt
  have s10 := blStep_of_blacklistOK path (blStep (blStep es "location_blacklist") "company_blacklist") "title_blacklist" (by rfl) hblt1
  unfold checkRequiredKeys normalizeBlacklists
  simp only [REQUIRED_CONFIG_KEYS, checkRequiredKeysAux, s1, s2, s3, s4, s5, s6, s7, s8, s9, s10]

theorem validateBoolMap_ok (subs : List String) (mkMsg : String → String)
    (m : List (String × Yaml))
    (h : subs.all (fun s => isBool ((dictFind? m s).getD .null)) = true) :
    validateBoolMap subs mkMsg (.dict m) = .ok () := by
  induction subs with
  | nil => rfl
  | cons k rest ih =>
    simp only [List.all_cons, Bool.and_eq_true] at h
    simp [validateBoolMap, pyGet, h.1, ih h.2]

theorem validateBoolMap_shape (subs : List String) (mkMsg : String → String)
    (m : List (String × Yaml)) :
    validateBoolMap subs mkMsg (.dict m) = .ok () ∨
    ∃ msg, validateBoolMap subs mkMsg (.dict m) = .error (.configError msg) := by
  induction subs with
  | nil => exact Or.inl rfl
  | cons k rest ih =>
    cases hb : isBool ((dictFind? m k).getD .null) with
    | false => exact Or.inr ⟨mkMsg k, by simp [validateBoolMap, pyGet, hb]⟩
    | true =>
      rcases ih with h | ⟨msg, h⟩
      · exact Or.inl (by simp [validateBoolMap, pyGet, hb, h])
      · exact Or.inr ⟨msg, by simp [validateBoolMap, pyGet, hb, h]⟩

theorem validate_lists_ok (ps : List (String × Yaml)) (path : String) (xs ys : List Yaml)
    (h1 : dictFind? ps "positions" = some (.list xs)) (h2 : xs.all isStr = true)
    (h3 : dictFind? ps "locations" = some (.list ys)) (h4 : ys.all isStr = true) :
    validate_list_of_strings (.dict ps) ["positions", "locations"] path = .ok () := by
  simp [validate_list_of_strings, pyGetItem, h1, h3, pyIterAllStr, h2, h4]

theorem validate_lists_shape (ps : List (String × Yaml)) (path : String) (xs ys : List Yaml)
    (h1 : dictFind? ps "positions" = some (.list xs))
    (h3 : dictFind? ps "locations" = some (.list ys)) :
    validate_list_of_strings (.dict ps) ["positions", "locations"] path = .ok () ∨
    ∃ m, validate_list_of_strings (.dict ps) ["positions", "locations"] path = .error (.configError m) := by
  cases ha : xs.all isStr with
  | false =>
    exact Or.inr ⟨listOfStringsMsg "positions" path,
      by simp [validate_list_of_strings, pyGetItem, h1, pyIterAllStr, ha]⟩
  | true =>
    cases hb : ys.all isStr with
    | false =>
      exact Or.inr ⟨listOfStringsMsg "locations" path,
        by simp [validate_list_of_strings, pyGetItem, h1, h3, pyIterAllStr, ha, hb]⟩
    | true => exact Or.inl (validate_lists_ok ps path xs ys h1 ha h3 hb)

theorem validate_distance_int (n : Int) (path : String) :
    validate_distance (.int n) path =
      if APPROVED_DISTANCES.contains n then .ok ()
      else .error (.configError (invalidDistanceMsg (.int n) path)) := by
  cases h : APPROVED_DISTANCES.contains n with
  | false =>
    have h2 : n ∉ APPROVED_DISTANCES := by simpa using h
    simp [validate_distance, pySetContainsInt, h, h2]
  | true =>
    have h2 : n ∈ APPROVED_DISTANCES := by simpa using h
    simp [validate_distance, pySetContainsInt, h, h2]

theorem validate_distance_bool (b : Bool) (path : String) :
    validate_distance (.bool b) path =
      if APPROVED_DISTANCES.contains (if b then (1 : Int) else 0) then .ok ()
      else .error (.configError (invalidDistanceMsg (.bool b) path)) := by
  cases h : APPROVED_DISTANCES.contains (if b then (1 : Int) else 0) with
  | false =>
    have h2 : (if b then (1 : Int) else 0) ∉ APPROVED_DISTANCES := by simpa using h
    simp [validate_distance, pySetContainsInt, h, h2]
  | true =>
    have h2 : (if b then (1 : Int) else 0) ∈ APPROVED_DISTANCES := by simpa using h
    simp [validate_distance, pySetContainsInt, h, h2]

theorem validate_blacklists_all_lists (ps : List (String × Yaml)) (path : String)
    (xs ys zs : List Yaml)
    (h1 : dictFind? ps "company_blacklist" = some (.list xs))
    (h2 : dictFind? ps "title_blacklist" = some (.list ys))
    (h3 : dictFind? ps "location_blacklist" = some (.list zs)) :
    validate_blacklists (.dict ps) path = .ok (.dict ps) := by
  simp [validate_blacklists, validateBlacklistsAux, pyGet, pyGetItem, h1, h2, h3, isList, isNull]

theorem normalizeBlacklists_find_other (es : List (String × Yaml)) (k : String)
    (h1 : k ≠ "location_blacklist") (h2 : k ≠ "company_blacklist")
    (h3 : k ≠ "title_blacklist") :
    dictFind? (normalizeBlacklists es) k = dictFind? es k := by
  unfold normalizeBlacklists
  rw [dictFind?_blStep_ne _ "title_blacklist" k h3,
    dictFind?_blStep_ne _ "company_blacklist" k h2,
    dictFind?_blStep_ne _ "location_blacklist" k h1]

theorem normalizeBlacklists_lists (es : List (String × Yaml)) (hbl : blacklistsOK es = true) :
    (∃ xs, dictFind? (normalizeBlacklists es) "company_blacklist" = some (.list xs)) ∧
    (∃ ys, dictFind? (normalizeBlacklists es) "title_blacklist" = some (.list ys)) ∧
    (∃ zs, dictFind? (normalizeBlacklists es) "location_blacklist" = some (.list zs)) := by
  obtain ⟨hc, ht, hl⟩ := blacklistsOK_elim es hbl
  unfold normalizeBlacklists
  refine ⟨?_, ?_, ?_⟩
  · rw [dictFind?_blStep_ne _ "title_blacklist" "company_blacklist" (by decide)]
    refine dictFind?_blStep_self _ "company_blacklist" ?_
    rw [blacklistOK_blStep_ne _ "location_blacklist" "company_blacklist" (by decide)]
    exact hc
  · refine dictFind?_blStep_self _ "title_blacklist" ?_
    rw [blacklistOK_blStep_ne _ "company_blacklist" "title_blacklist" (by decide),
      blacklistOK_blStep_ne _ "location_blacklist" "title_blacklist" (by decide)]
    exact ht
  · rw [dictFind?_blStep_ne _ "title_blacklist" "location_blacklist" (by decide),
      dictFind?_blStep_ne _ "company_blacklist" "location_blacklist" (by decide)]
    exact dictFind?_blStep_self _ "location_blacklist" hl

theorem pyGetItem_dict_found (ps : List (String × Yaml)) (key : String) (v : Yaml)
    (h : dictFind? ps key = some v) : pyGetItem (.dict ps) key = .ok v := by
  simp [pyGetItem, h]

theorem validate_config_of_coreValid (path : String) (es : List (String × Yaml))
    (hcv : coreValid es = true) (hbl : blacklistsOK es = true) :
    validate_config path (.dict es) =
      if distanceValid es then .ok (.dict (normalizeBlacklists es))
      else .error (.configError (invalidDistanceMsg ((dictFind? es "distance").getD .null) path)) := by
  have hpass := checkRequiredKeys_coreValid path es hcv hbl
  obtain ⟨⟨xsC, hnbC⟩, ⟨ysT, hnbT⟩, ⟨zsL, hnbL⟩⟩ := normalizeBlacklists_lists es hbl
  simp only [coreValid, Bool.and_eq_true] at hcv
  obtain ⟨⟨⟨⟨⟨⟨h1, h2⟩, h3⟩, h4⟩, h5⟩, h6⟩, h7⟩ := hcv
  obtain ⟨mel, hfe, hae⟩ := boolMapOK_elim es "experience_level" EXPERIENCE_LEVELS h2
  obtain ⟨mjt, hfj, haj⟩ := boolMapOK_elim es "job_types" JOB_TYPES h3
  obtain ⟨mdf, hfd, had⟩ := boolMapOK_elim es "date" DATE_FILTERS h4
  obtain ⟨xpos, hfp, hap⟩ := strListOK_elim es "positions" h5
  obtain ⟨xloc, hfl, hal⟩ := strListOK_elim es "locations" h6
  obtain ⟨vd, hfdist, htd⟩ := hasTyped_elim es "distance" .int h7
  have hne : dictFind? (normalizeBlacklists es) "experience_level" = some (.dict mel) := by
    rw [normalizeBlacklists_find_other es _ (by decide) (by decide) (by decide)]
    exact hfe
  have hnj : dictFind? (normalizeBlacklists es) "job_types" = some (.dict mjt) := by
    rw [normalizeBlacklists_find_other es _ (by decide) (by decide) (by decide)]
    exact hfj
  have hnd : dictFind? (normalizeBlacklists es) "date" = some (.dict mdf) := by
    rw [normalizeBlacklists_find_other es _ (by decide) (by decide) (by decide)]
    exact hfd
  have hnp : dictFind? (normalizeBlacklists es) "positions" = some (.list xpos) := by
    rw [normalizeBlacklists_find_other es _ (by decide) (by decide) (by decide)]
    exact hfp
  have hnl : dictFind? (normalizeBlacklists es) "locations" = some (.list xloc) := by
    rw [normalizeBlacklists_find_other es _ (by decide) (by decide) (by decide)]
    exact hfl
  have hndist : dictFind? (normalizeBlacklists es) "distance" = some vd := by
    rw [normalizeBlacklists_find_other es _ (by decide) (by decide) (by decide)]
    exact hfdist
  have stE : validate_experience_levels (.dict mel) path = .ok () :=
    validateBoolMap_ok EXPERIENCE_LEVELS _ mel hae
  have stJ : validate_job_types (.dict mjt) path = .ok () :=
    validateBoolMap_ok JOB_TYPES _ mjt haj
  have stD : validate_date_filters (.dict mdf) path = .ok () :=
    validateBoolMap_ok DATE_FILTERS _ mdf had
  have stL := validate_lists_ok (normalizeBlacklists es) path xpos xloc hnp hap hnl hal
  have stB := validate_blacklists_all_lists (normalizeBlacklists es) path xsC ysT zsL hnbC hnbT hnbL
  rcases isInt_eq_true vd htd with ⟨n, hn⟩ | ⟨b, hn⟩
  · subst hn
    have hdv : distanceValid es = APPROVED_DISTANCES.contains n := by
      unfold distanceValid
      rw [hfdist]
      rfl
    cases hc : APPROVED_DISTANCES.contains n with
    | true =>
      rw [hdv, hc, if_pos rfl]
      have stDist : validate_distance (.int n) path = .ok () := by
        rw [validate_distance_int, if_pos (by simpa using hc)]
      simp only [validate_config, hpass,
        pyGetItem_dict_found _ _ _ hne, pyGetItem_dict_found _ _ _ hnj,
        pyGetItem_dict_found _ _ _ hnd, pyGetItem_dict_found _ _ _ hndist,
        stE, stJ, stD, stL, stDist, stB]
    | false =>
      rw [hdv, hc, if_neg (by simp)]
      have stDist : validate_distance (.int n) path =
          .error (.configError (invalidDistanceMsg (.int n) path)) := by
        rw [validate_distance_int, if_neg (by simpa using hc)]
      rw [hfdist]
      simp only [validate_config, hpass,
        pyGetItem_dict_found _ _ _ hne, pyGetItem_dict_found _ _ _ hnj,
        pyGetItem_dict_found _ _ _ hnd, pyGetItem_dict_found _ _ _ hndist,
        stE, stJ, stD, stL, stDist, Option.getD_some]
  · subst hn
    have hdv : distanceValid es = APPROVED_DISTANCES.contains (if b then (1 : Int) else 0) := by
      unfold distanceValid
      rw [hfdist]
      rfl
    cases hc : APPROVED_DISTANCES.contains (if b then (1 : Int) else 0) with
    | true =>
      rw [hdv, hc, if_pos rfl]
      have stDist : validate_distance (.bool b) path = .ok () := by
        rw [validate_distance_bool, if_pos (by simpa using hc)]
      simp only [validate_config, hpass,
        pyGetItem_dict_found _ _ _ hne, pyGetItem_dict_found _ _ _ hnj,
        pyGetItem_dict_found _ _ _ hnd, pyGetItem_dict_found _ _ _ hndist,
        stE, stJ, stD, stL, stDist, stB]
    | false =>
      rw [hdv, hc, if_neg (by simp)]
      have stDist : validate_distance (.bool b) path =
          .error (.configError (invalidDistanceMsg (.bool b) path)) := by
        rw [validate_distance_bool, if_neg (by simpa using hc)]
      rw [hfdist]
      simp only [validate_config, hpass,
        pyGetItem_dict_found _ _ _ hne, pyGetItem_dict_found _ _ _ hnj,
        pyGetItem_dict_found _ _ _ hnd, pyGetItem_dict_found _ _ _ hndist,
        stE, stJ, stD, stL, stDist, Option.getD_some]

/-- C1: validate_config checks the configuration document in a fixed
order and raises on the first failure: the required-key/type pass over
all top-level keys first (whose error, when it fails, is the one
surfaced), and on a document passing that stage the result is exactly the
chain experience levels, then job types, then date filters, then the
positions/locations string-list check, then distance, then blacklist
normalization, each stage short-circuiting, so the error raised for a
document with multiple violations is always the one of the earliest
failing stage. -/
theorem validate_config_stage_order (path : String) (es : List (String × Yaml)) :
    (∀ e, checkRequiredKeys path (.dict es) = .error e →
      validate_config path (.dict es) = .error e) ∧
    (∀ ps, checkRequiredKeys path (.dict es) = .ok (.dict ps) →
      validate_config path (.dict es) = specValidationOrder path ps) := by
  constructor
  · intro e h
    simp only [validate_config, h]
  · intro ps h
    have hpost := checkRequiredKeysAux_post path REQUIRED_CONFIG_KEYS es ps h
      (by decide) (by decide)
    obtain ⟨ev, hev, _⟩ := hpost "experience_level" .dict (by decide)
    obtain ⟨jv, hjv, _⟩ := hpost "job_types" .dict (by decide)
    obtain ⟨dv, hdv, _⟩ := hpost "date" .dict (by decide)
    obtain ⟨distv, hdistv, _⟩ := hpost "distance" .int (by decide)
    simp only [validate_config, h, specValidationOrder,
      pyGetItem_dict_found _ _ _ hev, pyGetItem_dict_found _ _ _ hjv,
      pyGetItem_dict_found _ _ _ hdv, pyGetItem_dict_found _ _ _ hdistv,
      hev, hjv, hdv, hdistv, Option.getD_some]

/-- Witness for C1 at a concrete document: the minimal valid document
passes the required-key pass unchanged and validate_config agrees with
the spec-side stage chain on it. -/
theorem validate_config_stage_order_witness :
    validate_config "cfg" (Yaml.dict minimalEntries) = specValidationOrder "cfg" minimalEntries :=
  (validate_config_stage_order "cfg" minimalEntries).2 minimalEntries rfl

theorem validate_distance_shape (v : Yaml) (path : String) (ht : isinstance v .int = true) :
    validate_distance v path = .ok () ∨
    ∃ m, validate_distance v path = .error (.configError m) := by
  rcases isInt_eq_true v ht with ⟨n, hn⟩ | ⟨b, hn⟩ <;> subst hn
  · cases h : APPROVED_DISTANCES.contains n with
    | true => exact Or.inl (by rw [validate_distance_int, if_pos (by simpa using h)])
    | false =>
      exact Or.inr ⟨invalidDistanceMsg (.int n) path,
        by rw [validate_distance_int, if_neg (by simpa using h)]⟩
  · cases h : APPROVED_DISTANCES.contains (if b then (1 : Int) else 0) with
    | true => exact Or.inl (by rw [validate_distance_bool, if_pos (by simpa using h)])
    | false =>
      exact Or.inr ⟨invalidDistanceMsg (.bool b) path,
        by rw [validate_distance_bool, if_neg (by simpa using h)]⟩

/-- C9 (amended): load failures surface as ConfigError parse failures,
and on every parsed document that is a mapping, validate_config either
returns a validated document or fails with a ConfigError schema
violation; the original claim extended this to null and scalar documents,
which instead raise a TypeError (see the counterexample). -/
theorem validate_config_error_taxonomy (path m : String) (es : List (String × Yaml)) :
    validate_config_file path (.yamlError m) = .error (.configError (yamlErrorMsg path m)) ∧
    validate_config_file path .fileMissing = .error (.configError (yamlNotFoundMsg path)) ∧
    ((∃ ps, validate_config path (.dict es) = .ok (.dict ps)) ∨
     (∃ m2, validate_config path (.dict es) = .error (.configError m2))) := by
  refine ⟨rfl, rfl, ?_⟩
  cases hp : checkRequiredKeys path (.dict es) with
  | error e =>
    obtain ⟨m2, hm⟩ := checkRequiredKeysAux_error_config path REQUIRED_CONFIG_KEYS es e hp
    exact Or.inr ⟨m2, by simp only [validate_config, hp, hm]⟩
  | ok q =>
    obtain ⟨ps, hq⟩ := checkRequiredKeysAux_ok_dict path REQUIRED_CONFIG_KEYS es q hp
    subst hq
    have hpost := checkRequiredKeysAux_post path REQUIRED_CONFIG_KEYS es ps hp
      (by decide) (by decide)
    obtain ⟨ev, hev, hevt⟩ := hpost "experience_level" .dict (by decide)
    obtain ⟨mel, hmel⟩ := isDict_eq_true ev (by simpa [isinstance] using hevt)
    subst hmel
    obtain ⟨jv, hjv, hjvt⟩ := hpost "job_types" .dict (by decide)
    obtain ⟨mjt, hmjt⟩ := isDict_eq_true jv (by simpa [isinstance] using hjvt)
    subst hmjt
    obtain ⟨dv, hdv, hdvt⟩ := hpost "date" .dict (by decide)
    obtain ⟨mdf, hmdf⟩ := isDict_eq_true dv (by simpa [isinstance] using hdvt)
    subst hmdf
    obtain ⟨pv, hpv, hpvt⟩ := hpost "positions" .list (by decide)
    obtain ⟨xpos, hxpos⟩ := isList_eq_true pv (by simpa [isinstance] using hpvt)
    subst hxpos
    obtain ⟨lv, hlv, hlvt⟩ := hpost "locations" .list (by decide)
    obtain ⟨xloc, hxloc⟩ := isList_eq_true lv (by simpa [isinstance] using hlvt)
    subst hxloc
    obtain ⟨dist, hdist, hdistt⟩ := hpost "distance" .int (by decide)
    obtain ⟨cb, hcb, hcbt⟩ := hpost "company_blacklist" .list (by decide)
    obtain ⟨xsC, hxsC⟩ := isList_eq_true cb (by simpa [isinstance] using hcbt)
    subst hxsC
    obtain ⟨tb, htb, htbt⟩ := hpost "title_blacklist" .list (by decide)
    obtain ⟨ysT, hysT⟩ := isList_eq_true tb (by simpa [isinstance] using htbt)
    subst hysT
    obtain ⟨lb, hlb, hlbt⟩ := hpost "location_blacklist" .list (by decide)
    obtain ⟨zsL, hzsL⟩ := isList_eq_true lb (by simpa [isinstance] using hlbt)
    subst hzsL
    rcases validateBoolMap_shape EXPERIENCE_LEVELS (fun level => expLevelMsg level path) mel
      with hE | ⟨mE, hE⟩
    rotate_left
    · exact Or.inr ⟨mE, by
        simp only [validate_config, hp, pyGetItem_dict_found _ _ _ hev,
          validate_experience_levels, hE]⟩
    rcases validateBoolMap_shape JOB_TYPES (fun jt => jobTypeMsg jt path) mjt
      with hJ | ⟨mJ, hJ⟩
    rotate_left
    · exact Or.inr ⟨mJ, by
        simp only [validate_config, hp, pyGetItem_dict_found _ _ _ hev,
          pyGetItem_dict_found _ _ _ hjv, validate_experience_levels, hE,
          validate_job_types, hJ]⟩
    rcases validateBoolMap_shape DATE_FILTERS (fun df => dateFilterMsg df path) mdf
      with hD | ⟨mD, hD⟩
    rotate_left
    · exact Or.inr ⟨mD, by
        simp only [validate_config, hp, pyGetItem_dict_found _ _ _ hev,
          pyGetItem_dict_found _ _ _ hjv, pyGetItem_dict_found _ _ _ hdv,
          validate_experience_levels, hE, validate_job_types, hJ,
          validate_date_filters, hD]⟩
    rcases validate_lists_shape ps path xpos xloc hpv hlv with hL | ⟨mL, hL⟩
    rotate_left
    · exact Or.inr ⟨mL, by
        simp only [validate_config, hp, pyGetItem_dict_found _ _ _ hev,
          pyGetItem_dict_found _ _ _ hjv, pyGetItem_dict_found _ _ _ hdv,
          validate_experience_levels, hE, validate_job_types, hJ,
          validate_date_filters, hD, hL]⟩
    rcases validate_distance_shape dist path hdistt with hDi | ⟨mDi, hDi⟩
    rotate_left
    · exact Or.inr ⟨mDi, by
        simp only [validate_config, hp, pyGetItem_dict_found _ _ _ hev,
          pyGetItem_dict_found _ _ _ hjv, pyGetItem_dict_found _ _ _ hdv,
          pyGetItem_dict_found _ _ _ hdist, validate_experience_levels, hE,
          validate_job_types, hJ, validate_date_filters, hD, hL, hDi]⟩
    refine Or.inl ⟨ps, ?_⟩
    simp only [validate_config, hp, pyGetItem_dict_found _ _ _ hev,
      pyGetItem_dict_found _ _ _ hjv, pyGetItem_dict_found _ _ _ hdv,
      pyGetItem_dict_found _ _ _ hdist, validate_experience_levels, hE,
      validate_job_types, hJ, validate_date_filters, hD, hL, hDi,
      validate_blacklists_all_lists ps path xsC ysT zsL hcb htb hlb]

/-- Counterexample to C9 as stated: a document that parses to null makes
validate_config raise a TypeError (the Python `in` operator on None),
not a ConfigError, so an exception outside ConfigError does escape. -/
theorem validate_config_null_type_error :
    validate_config_file "cfg" (.parsed Yaml.null) =
      .error (.typeError (notIterableMsg "NoneType")) := rfl

/-- C2 (amended): REQUIRED_CONFIG_KEYS holds ten required keys, not
eleven, seven of them outside the blacklist trio; every configuration
mapping missing one of those seven fails with a ConfigError, and when the
missing key is the earliest violation the required-key pass meets, the
error is the schema violation naming exactly that key. -/
theorem validate_config_missing_required_key (path k : String) (es : List (String × Yaml))
    (hmem : REQUIRED_CONFIG_KEYS.any (fun kt => kt.1 == k) = true)
    (hnb : BLACKLIST_KEYS.contains k = false)
    (habs : dictFind? es k = none) :
    (∃ m, validate_config path (.dict es) = .error (.configError m)) ∧
    (firstViolationMissing REQUIRED_CONFIG_KEYS es k = true →
      validate_config path (.dict es) = .error (.configError (missingKeyMsg k path))) := by
  constructor
  · obtain ⟨m, hm⟩ := checkRequiredKeysAux_missing path REQUIRED_CONFIG_KEYS es k hmem hnb habs
    exact ⟨m, by simp only [validate_config, checkRequiredKeys, hm]⟩
  · intro hfv
    have hm := checkRequiredKeysAux_first_missing path REQUIRED_CONFIG_KEYS es k hfv
    simp only [validate_config, checkRequiredKeys, hm]

/-- Witness for C2 at a concrete document: the minimal document with its
distance key removed fails, and since distance is the earliest violation
there, the error names distance. -/
theorem validate_config_missing_required_key_witness :
    (∃ m, validate_config "cfg" (.dict missingDistanceEntries) = .error (.configError m)) ∧
    (firstViolationMissing REQUIRED_CONFIG_KEYS missingDistanceEntries "distance" = true →
      validate_config "cfg" (.dict missingDistanceEntries) =
        .error (.configError (missingKeyMsg "distance" "cfg"))) :=
  validate_config_missing_required_key "cfg" "distance" missingDistanceEntries
    (by decide) (by decide) rfl

/-- Counterexample to C2 as stated: there are ten required keys, not
eleven, and the empty mapping, which is missing distance among every
other key, fails with an error naming only remote, so the error does not
name each missing key. -/
theorem validate_config_missing_key_counterexample :
    REQUIRED_CONFIG_KEYS.length = 10 ∧
    validate_config "cfg" (.dict []) = .error (.configError (missingKeyMsg "remote" "cfg")) ∧
    missingKeyMsg "remote" "cfg" ≠ missingKeyMsg "distance" "cfg" := by
  refine ⟨rfl, rfl, ?_⟩
  decide

/-- C3: on an otherwise-valid configuration mapping, a blacklist key that
is absent or explicitly null is never reported as a failure:
validate_config succeeds with the normalized document, which binds that
key to an empty list. -/
theorem validate_config_blacklist_default (path bk : String) (es : List (String × Yaml))
    (hcv : coreValid es = true) (hbl : blacklistsOK es = true)
    (hdv : distanceValid es = true)
    (hbk : BLACKLIST_KEYS.contains bk = true)
    (habs : dictFind? es bk = none ∨ dictFind? es bk = some .null) :
    validate_config path (.dict es) = .ok (.dict (normalizeBlacklists es)) ∧
    dictFind? (normalizeBlacklists es) bk = some (.list []) := by
  constructor
  · rw [validate_config_of_coreValid path es hcv hbl, if_pos hdv]
  · have hbk2 : bk = "company_blacklist" ∨ bk = "title_blacklist" ∨ bk = "location_blacklist" := by
      simpa [BLACKLIST_KEYS] using hbk
    unfold normalizeBlacklists
    rcases hbk2 with h | h | h <;> subst h
    · rw [dictFind?_blStep_ne _ "title_blacklist" _ (by decide)]
      apply dictFind?_blStep_default
      rcases habs with h2 | h2
      · exact Or.inl (by rw [dictFind?_blStep_ne _ "location_blacklist" _ (by decide)]; exact h2)
      · exact Or.inr (by rw [dictFind?_blStep_ne _ "location_blacklist" _ (by decide)]; exact h2)
    · apply dictFind?_blStep_default
      rcases habs with h2 | h2
      · exact Or.inl (by
          rw [dictFind?_blStep_ne _ "company_blacklist" _ (by decide),
            dictFind?_blStep_ne _ "location_blacklist" _ (by decide)]
          exact h2)
      · exact Or.inr (by
          rw [dictFind?_blStep_ne _ "company_blacklist" _ (by decide),
            dictFind?_blStep_ne _ "location_blacklist" _ (by decide)]
          exact h2)
    · rw [dictFind?_blStep_ne _ "title_blacklist" _ (by decide),
        dictFind?_blStep_ne _ "company_blacklist" _ (by decide)]
      exact dictFind?_blStep_default _ _ habs

/-- Witness for C3 at a concrete document: with the company blacklist
removed, validation succeeds and the normalized document carries an empty
company blacklist. -/
theorem validate_config_blacklist_default_witness :
    validate_config "cfg" (.dict missingCompanyBlacklistEntries) =
      .ok (.dict (normalizeBlacklists missingCompanyBlacklistEntries)) ∧
    dictFind? (normalizeBlacklists missingCompanyBlacklistEntries) "company_blacklist" =
      some (.list []) :=
  validate_config_blacklist_default "cfg" "company_blacklist" missingCompanyBlacklistEntries
    (by decide) (by decide) (by decide) (by decide) (Or.inl rfl)

/-- C4: holding all other fields valid, validate_config succeeds exactly
for distance values inside the approved set and fails with the
invalid-distance schema violation for every integer outside it. -/
theorem validate_config_distance_gate (path : String) (es : List (String × Yaml)) (n : Int)
    (hcv : coreValid es = true) (hbl : blacklistsOK es = true)
    (hd : dictFind? es "distance" = some (.int n)) :
    (APPROVED_DISTANCES.contains n = true →
      validate_config path (.dict es) = .ok (.dict (normalizeBlacklists es))) ∧
    (APPROVED_DISTANCES.contains n = false →
      validate_config path (.dict es) =
        .error (.configError (invalidDistanceMsg (.int n) path))) := by
  have hdv : distanceValid es = APPROVED_DISTANCES.contains n := by
    unfold distanceValid
    rw [hd]
    rfl
  constructor
  · intro hc
    rw [validate_config_of_coreValid path es hcv hbl, hdv, hc, if_pos rfl]
  · intro hc
    rw [validate_config_of_coreValid path es hcv hbl, hdv, hc, if_neg (by simp), hd]
    rfl

/-- Witness for C4 at a concrete document with distance 5, inside the
approved set. -/
theorem validate_config_distance_gate_witness :
    (APPROVED_DISTANCES.contains 5 = true →
      validate_config "cfg" (.dict distanceFiveEntries) =
        .ok (.dict (normalizeBlacklists distanceFiveEntries))) ∧
    (APPROVED_DISTANCES.contains 5 = false →
      validate_config "cfg" (.dict distanceFiveEntries) =
        .error (.configError (invalidDistanceMsg (.int 5) "cfg"))) :=
  validate_config_distance_gate "cfg" distanceFiveEntries 5 (by decide) (by decide) rfl

/-- C5: the minimal valid configuration document round-trips through
validate_config: validation succeeds and returns the document unchanged,
the blacklist defaulting being a no-op on it. -/
theorem validate_config_minimal_roundtrip :
    validate_config "config.yaml" (.dict minimalEntries) = .ok (.dict minimalEntries) := rfl

/-- C6: validate_secrets fails with a ConfigError when the llm_api_key
field of the secrets mapping is absent or the empty string, and for any
non-empty string value it succeeds returning exactly that string. -/
theorem validate_secrets_key_rules (path : String) (es : List (String × Yaml)) :
    (dictFind? es "llm_api_key" = none →
      validate_secrets path (.dict es) =
        .error (.configError (missingSecretMsg "llm_api_key" path))) ∧
    (dictFind? es "llm_api_key" = some (.str "") →
      validate_secrets path (.dict es) =
        .error (.configError (emptySecretMsg "llm_api_key" path))) ∧
    (∀ s, s ≠ "" → dictFind? es "llm_api_key" = some (.str s) →
      validate_secrets path (.dict es) = .ok (.str s)) := by
  refine ⟨?_, ?_, ?_⟩
  · intro h
    simp [validate_secrets, validateSecretsAux, pyContains, h]
  · intro h
    simp [validate_secrets, validateSecretsAux, pyContains, pyGetItem, h, pyTruthy]
  · intro s hs h
    simp [validate_secrets, validateSecretsAux, pyContains, pyGetItem, h, pyTruthy, hs]

/-- Witness for C6 at a concrete secrets document with a non-empty key. -/
theorem validate_secrets_key_rules_witness :
    validate_secrets "secrets.yaml" (.dict [("llm_api_key", Yaml.str "k")]) = .ok (.str "k") :=
  (validate_secrets_key_rules "secrets.yaml" [("llm_api_key", Yaml.str "k")]).2.2 "k"
    (by decide) rfl

/-- C7: an existing data directory lacking required files fails with a
FileNotFoundError whose message lists every absent required filename (the
filter keeps each missing file), and when only the plain-text resume is
missing the list of missing files is exactly that filename. -/
theorem validate_data_folder_missing_files (f : DataFolder)
    (hdir : f.isDir = true)
    (hmiss : (REQUIRED_FILES.filter (fun x => !(f.files.contains x))).isEmpty = false) :
    validate_data_folder f =
      .error (.fileNotFoundError
        (missingFilesMsg (REQUIRED_FILES.filter (fun x => !(f.files.contains x))))) ∧
    (∀ x, x ∈ REQUIRED_FILES → f.files.contains x = false →
      x ∈ REQUIRED_FILES.filter (fun y => !(f.files.contains y))) ∧
    (f.files.contains SECRETS_YAML = true → f.files.contains WORK_PREFERENCES_YAML = true →
      f.files.contains PLAIN_TEXT_RESUME_YAML = false →
      REQUIRED_FILES.filter (fun x => !(f.files.contains x)) = [PLAIN_TEXT_RESUME_YAML]) := by
  refine ⟨?_, ?_, ?_⟩
  · simp only [validate_data_folder, hdir, Bool.not_true, Bool.false_eq_true, if_false,
      hmiss, Bool.not_false, if_true]
  · intro x hx hc
    have hc2 : x ∉ f.files := by simpa using hc
    simp [List.mem_filter, hx, hc2]
  · intro h1 h2 h3
    have m1 : SECRETS_YAML ∈ f.files := by simpa using h1
    have m2 : WORK_PREFERENCES_YAML ∈ f.files := by simpa using h2
    have m3 : PLAIN_TEXT_RESUME_YAML ∉ f.files := by simpa using h3
    simp [REQUIRED_FILES, List.filter_cons, h1, h2, h3, m1, m2, m3]

/-- Witness for C7 at a concrete folder holding only the secrets and
work-preferences files: the error lists exactly the plain-text resume. -/
theorem validate_data_folder_missing_files_witness :
    validate_data_folder folderWithoutResume =
      .error (.fileNotFoundError (missingFilesMsg [PLAIN_TEXT_RESUME_YAML])) := by
  have h := validate_data_folder_missing_files folderWithoutResume rfl rfl
  rw [h.1, h.2.2 rfl rfl rfl]

/-- C8: when the payload string returned by the build collaborator fails
base64 decoding, the plain-resume dispatch tail raises that decode error
before any file write happens, leaving the written output files
unchanged. -/
theorem create_resume_pdf_decode_failure (s p : String) (files : OutputFiles) (e : PyError)
    (h : b64decode s = .error e) :
    create_resume_pdf_finish s p files = (files, some e) := by
  simp [create_resume_pdf_finish, h]

/-- Witness for C8 at a concrete invalid payload: a single base64
character is one more than a multiple of four data characters. -/
theorem create_resume_pdf_decode_failure_witness :
    create_resume_pdf_finish "A" "resume.pdf" [] = ([], some (.binasciiError invalidB64Msg)) :=
  create_resume_pdf_decode_failure "A" "resume.pdf" [] (.binasciiError invalidB64Msg) rfl

/-- C10: because the required-key type check accepts booleans as ints, a
boolean distance is never rejected as a wrong type: with all other fields
valid, distance False (equal to 0) passes the whole validation and
distance True (equal to 1) fails with the invalid-distance error. -/
theorem validate_config_boolean_distance (path : String) (es : List (String × Yaml)) (b : Bool)
    (hcv : coreValid es = true) (hbl : blacklistsOK es = true)
    (hd : dictFind? es "distance" = some (.bool b)) :
    (b = false → validate_config path (.dict es) = .ok (.dict (normalizeBlacklists es))) ∧
    (b = true → validate_config path (.dict es) =
      .error (.configError (invalidDistanceMsg (.bool true) path))) := by
  have hdv : distanceValid es = APPROVED_DISTANCES.contains (if b then (1 : Int) else 0) := by
    unfold distanceValid
    rw [hd]
    rfl
  constructor
  · intro hb
    subst hb
    have hzero : APPROVED_DISTANCES.contains (if (false : Bool) then (1 : Int) else 0) = true := by
      decide
    rw [validate_config_of_coreValid path es hcv hbl, hdv, hzero, if_pos rfl]
  · intro hb
    subst hb
    have hone : APPROVED_DISTANCES.contains (if (true : Bool) then (1 : Int) else 0) = false := by
      decide
    rw [validate_config_of_coreValid path es hcv hbl, hdv, hone, if_neg (by simp), hd]
    rfl

/-- Witness for C10 at a concrete document whose distance is the boolean
False: validation succeeds. -/
theorem validate_config_boolean_distance_witness :
    (false = false → validate_config "cfg" (.dict distanceFalseEntries) =
      .ok (.dict (normalizeBlacklists distanceFalseEntries))) ∧
    (false = true → validate_config "cfg" (.dict distanceFalseEntries) =
      .error (.configError (invalidDistanceMsg (.bool true) "cfg"))) :=
  validate_config_boolean_distance "cfg" distanceFalseEntries false (by decide) (by decide) rfl
